import Mathlib

/-
Verification of the VideoToolbox OpenGL hwdec backend
(video/out/opengl/hwdec_osx.c): a shallow embedding of the static
format table, the two table lookups, the downloader, the reinit hook,
the per-frame surface importer and its retain/release discipline,
together with proofs of the specified properties.
-/

namespace HwdecOsx

/-! ## Constants

OpenGL enumerant values and CoreVideo FourCC pixel-format codes are
fixed public constants of the platform headers; their numeric values
are reproduced here.  MP_MAX_PLANES is mpv's fixed plane-array bound. -/

def MP_MAX_PLANES : Nat := 4

def GL_RED : Nat := 0x1903
def GL_RG : Nat := 0x8227
def GL_RGB : Nat := 0x1907
def GL_RGBA : Nat := 0x1908
def GL_BGRA : Nat := 0x80E1
def GL_RGB_422_APPLE : Nat := 0x8A1F
def GL_UNSIGNED_BYTE : Nat := 0x1401
def GL_UNSIGNED_SHORT_8_8_APPLE : Nat := 0x85BA
def GL_UNSIGNED_INT_8_8_8_8_REV : Nat := 0x8367
def GL_TEXTURE_RECTANGLE : Nat := 0x84F5

/-- CoreVideo FourCC code for the 420v semi-planar video-range format. -/
def kCVPixelFormatType_420YpCbCr8BiPlanarVideoRange : Nat := 0x34323076

/-- CoreVideo FourCC code 2vuy for the packed 4:2:2 format. -/
def kCVPixelFormatType_422YpCbCr8 : Nat := 0x32767579

/-- CoreVideo FourCC code y420 for the fully planar 4:2:0 format. -/
def kCVPixelFormatType_420YpCbCr8Planar : Nat := 0x79343230

/-- CoreVideo FourCC code BGRA for the packed 32-bit format. -/
def kCVPixelFormatType_32BGRA : Nat := 0x42475241

/-- Modelled from the spec: the internal image-format enum identifiers
(mpv's img_format.h is not under src/).  The spec only requires them to
be distinct enum values; concrete distinct naturals stand for them. -/
def IMGFMT_NV12 : Nat := 1
def IMGFMT_UYVY : Nat := 2
def IMGFMT_420P : Nat := 3
def IMGFMT_RGB0 : Nat := 4
def IMGFMT_VIDEOTOOLBOX : Nat := 5

/-- The value (uint32_t)-1 returned by get_vt_fmt for "none". -/
def UINT32_MAX : Nat := 4294967295

/-! ## Data model: the static format table -/

/-- struct vt_gl_plane_format: per-plane GL layout.  A C designated
initializer zero-fills omitted members, so the default swizzle is the
empty string and omitted enums are 0. -/
structure vt_gl_plane_format where
  gl_format : Nat
  gl_type : Nat
  gl_internal_format : Nat
  swizzle : String
deriving DecidableEq, Repr

/-- Zero-initialized plane layout (C aggregate zero fill). -/
def zeroPlaneFormat : vt_gl_plane_format := ⟨0, 0, 0, ""⟩

/-- struct vt_format: one row of the table.  The C field gl is a fixed
array of MP_MAX_PLANES entries; it is embedded as a list of length 4,
zero-filled past the declared planes. -/
structure vt_format where
  cvpixfmt : Nat
  imgfmt : Nat
  planes : Nat
  gl : List vt_gl_plane_format
deriving DecidableEq, Repr

/-- Row one of vt_formats: 420v / NV12. -/
def fmt_nv12 : vt_format :=
  { cvpixfmt := kCVPixelFormatType_420YpCbCr8BiPlanarVideoRange,
    imgfmt := IMGFMT_NV12,
    planes := 2,
    gl := [⟨GL_RED, GL_UNSIGNED_BYTE, GL_RED, ""⟩,
           ⟨GL_RG, GL_UNSIGNED_BYTE, GL_RG, ""⟩,
           zeroPlaneFormat, zeroPlaneFormat] }

/-- Row two of vt_formats: 2vuy / UYVY with the gbra swizzle. -/
def fmt_uyvy : vt_format :=
  { cvpixfmt := kCVPixelFormatType_422YpCbCr8,
    imgfmt := IMGFMT_UYVY,
    planes := 1,
    gl := [⟨GL_RGB_422_APPLE, GL_UNSIGNED_SHORT_8_8_APPLE, GL_RGB, "gbra"⟩,
           zeroPlaneFormat, zeroPlaneFormat, zeroPlaneFormat] }

/-- Row three of vt_formats: y420 / 420P. -/
def fmt_420p : vt_format :=
  { cvpixfmt := kCVPixelFormatType_420YpCbCr8Planar,
    imgfmt := IMGFMT_420P,
    planes := 3,
    gl := [⟨GL_RED, GL_UNSIGNED_BYTE, GL_RED, ""⟩,
           ⟨GL_RED, GL_UNSIGNED_BYTE, GL_RED, ""⟩,
           ⟨GL_RED, GL_UNSIGNED_BYTE, GL_RED, ""⟩,
           zeroPlaneFormat] }

/-- Row four of vt_formats: BGRA / RGB0. -/
def fmt_rgb0 : vt_format :=
  { cvpixfmt := kCVPixelFormatType_32BGRA,
    imgfmt := IMGFMT_RGB0,
    planes := 1,
    gl := [⟨GL_BGRA, GL_UNSIGNED_INT_8_8_8_8_REV, GL_RGBA, ""⟩,
           zeroPlaneFormat, zeroPlaneFormat, zeroPlaneFormat] }

/-- The static table vt_formats, entry for entry from the source. -/
def vt_formats : List vt_format := [fmt_nv12, fmt_uyvy, fmt_420p, fmt_rgb0]

/-- vt_get_gl_format: linear scan of vt_formats by cvpixfmt; NULL
becomes none. -/
def vt_get_gl_format (cvpixfmt : Nat) : Option vt_format :=
  vt_formats.find? (fun f => f.cvpixfmt == cvpixfmt)

/-- vt_get_gl_format_from_imgfmt: linear scan of vt_formats by imgfmt. -/
def vt_get_gl_format_from_imgfmt (imgfmt : Nat) : Option vt_format :=
  vt_formats.find? (fun f => f.imgfmt == imgfmt)

end HwdecOsx

namespace HwdecOsx

/-! ## Inputs: pixel buffers, surfaces, frames -/

/-- The GPU-importable surface backing a pixel buffer, queried per
plane for its dimensions (the per-plane width/height getters). -/
structure Surface where
  planeWidths : List Nat
  planeHeights : List Nat
deriving DecidableEq, Repr

/-- An opaque CVPixelBuffer as seen through the query functions the
code calls on it: pixel-format type, nominal size, planarity, plane
count, per-plane base addresses and row strides, and the optional
backing surface (none when CVPixelBufferGetIOSurface yields NULL). -/
structure CVPixelBuffer where
  pixelFormatType : Nat
  width : Nat
  height : Nat
  isPlanar : Bool
  planeCount : Nat
  planeBases : List Nat
  planeStrides : List Nat
  surface : Option Surface
deriving DecidableEq, Repr

/-- A hardware frame handed to map_frame: the ref is the identity of
the CVPixelBufferRef stored in planes[3] (used for retain/release
accounting); buf is what the CoreVideo queries on that ref return. -/
structure HwImage where
  ref : Nat
  buf : CVPixelBuffer
deriving DecidableEq, Repr

/-! ## FallbackCopier: download_image -/

/-- The hw_image argument of download_image: its format tag, the
CVPixelBuffer carried in planes[3], and the attributes that
mp_image_copy_attributes transfers (kept abstract as one value). -/
structure HwDlImage where
  imgfmt : Nat
  pbuf : CVPixelBuffer
  attrs : Nat
deriving DecidableEq, Repr

/-- The software image built by download_image: format and size set
from the buffer, per-plane base pointers and strides read from the
locked buffer, attributes copied from the source frame.  The pool copy
(mp_image_pool_new_copy) yields an owned image with this content. -/
structure SwImage where
  imgfmt : Nat
  width : Nat
  height : Nat
  planes : List Nat
  stride : List Nat
  attrs : Nat
deriving DecidableEq, Repr

/-- Result of download_image together with the number of times the
buffer lock was acquired (CVPixelBufferLockBaseAddress) and released
(CVPixelBufferUnlockBaseAddress) on the path taken. -/
structure DlResult where
  image : Option SwImage
  locks : Nat
  unlocks : Nat
deriving DecidableEq, Repr

/-- download_image.  Path one returns before the lock (format-tag
check); the two paths below it lock once and both reach the single
unlock label: the goto-unlock path on lookup failure and the
fall-through path after the pool copy. -/
def download_image (hw_image : HwDlImage) : DlResult :=
  if hw_image.imgfmt ≠ IMGFMT_VIDEOTOOLBOX then
    { image := none, locks := 0, unlocks := 0 }
  else
    let pbuf := hw_image.pbuf
    match vt_get_gl_format pbuf.pixelFormatType with
    | none => { image := none, locks := 1, unlocks := 1 }
    | some f =>
        let img : SwImage :=
          { imgfmt := f.imgfmt
            width := pbuf.width
            height := pbuf.height
            planes := (List.range f.planes).map (fun i => pbuf.planeBases.getD i 0)
            stride := (List.range f.planes).map (fun i => pbuf.planeStrides.getD i 0)
            attrs := hw_image.attrs }
        { image := some img, locks := 1, unlocks := 1 }

/-! ## Device registry callback: get_vt_fmt -/

/-- get_vt_fmt: resolve the configured videotoolbox_format option
through the imgfmt lookup; an absent entry yields (uint32_t)-1. -/
def get_vt_fmt (videotoolbox_format : Nat) : Nat :=
  match vt_get_gl_format_from_imgfmt videotoolbox_format with
  | some f => f.cvpixfmt
  | none => UINT32_MAX

/-! ## Reinitialization: reinit -/

/-- The two mp_image_params fields reinit touches. -/
structure mp_image_params where
  imgfmt : Nat
  hw_subfmt : Nat
deriving DecidableEq, Repr

/-- reinit.  The entry assertion params->imgfmt == hw->driver->imgfmt
(the driver declares IMGFMT_VIDEOTOOLBOX) aborts as none when false;
otherwise the result is the C return status paired with the params
after the call. -/
def reinit (params : mp_image_params) : Option (Int × mp_image_params) :=
  if params.imgfmt ≠ IMGFMT_VIDEOTOOLBOX then
    none
  else
    match vt_get_gl_format_from_imgfmt params.hw_subfmt with
    | none => some (-1, params)
    | some f => some (0, { imgfmt := f.imgfmt, hw_subfmt := 0 })

end HwdecOsx

namespace HwdecOsx

/-! ## SurfaceImporter: map_frame and the component state -/

/-- struct priv: the retained CVPixelBufferRef slot (none is NULL, as
talloc_zero leaves it) and the fixed GL texture-name array. -/
structure Priv where
  pbuf : Option Nat
  gl_planes : List Nat
deriving DecidableEq, Repr

/-- One entry of gl_hwdec_frame's plane array. -/
structure gl_hwdec_plane where
  gl_texture : Nat
  gl_target : Nat
  tex_w : Nat
  tex_h : Nat
  swizzle : String
deriving DecidableEq, Repr

/-- Zero entry, for frames not yet populated. -/
def zeroHwdecPlane : gl_hwdec_plane := ⟨0, 0, 0, 0, ""⟩

/-- The out_frame argument: a fixed array of MP_MAX_PLANES entries. -/
structure gl_hwdec_frame where
  planes : List gl_hwdec_plane
deriving DecidableEq, Repr

/-- An all-zero out_frame of the fixed four-entry capacity. -/
def emptyFrame : gl_hwdec_frame :=
  ⟨[zeroHwdecPlane, zeroHwdecPlane, zeroHwdecPlane, zeroHwdecPlane]⟩

/-- A retain/release action on a CVPixelBufferRef.  Release carries an
Option because CVPixelBufferRelease(NULL) is a legal no-op. -/
inductive RefEvent where
  | release (b : Option Nat)
  | retain (b : Nat)
deriving DecidableEq, Repr

/-- The plane-count assertion of map_frame exactly as written:
planar && planes == f->planes || f->planes == 1, with the C precedence
of && over ||. -/
def assert_cond (planar : Bool) (planes fplanes : Nat) : Bool :=
  (planar && planes == fplanes) || fplanes == 1

/-- The plane-count condition the spec states as the intent: the
descriptor count must match the reported count for a planar frame, and
must be 1 for a non-planar frame. -/
def spec_plane_cond (planar : Bool) (planes fplanes : Nat) : Bool :=
  (planar && planes == fplanes) || (!planar && fplanes == 1)

/-- The plane entry the import loop writes for plane i: the texture
name from the component's array, the rectangle target, the surface's
per-plane dimensions (not the frame's nominal size) and the
descriptor's swizzle. -/
def populatedPlane (p : Priv) (f : vt_format) (s : Surface) (i : Nat) : gl_hwdec_plane :=
  { gl_texture := p.gl_planes.getD i 0
    gl_target := GL_TEXTURE_RECTANGLE
    tex_w := s.planeWidths.getD i 0
    tex_h := s.planeHeights.getD i 0
    swizzle := (f.gl.getD i zeroPlaneFormat).swizzle }

/-- One iteration of the import loop for plane i: after the bind, the
CGLTexImageIOSurface2D call and the unbind, out_frame->planes[i] is
assigned the texture name, rectangle target, the surface's per-plane
dimensions and the descriptor's swizzle. -/
def bindPlane (p : Priv) (f : vt_format) (s : Surface)
    (frame : gl_hwdec_frame) (i : Nat) : gl_hwdec_frame :=
  ⟨frame.planes.set i (populatedPlane p f s i)⟩

/-- The import loop over planes 0..f.planes-1, also accumulating the
indices whose CGL import call failed (those are only logged). -/
def bindLoop (p : Priv) (f : vt_format) (s : Surface)
    (frame : gl_hwdec_frame) (cglErr : Nat → Bool) :
    gl_hwdec_frame × List Nat :=
  (List.range f.planes).foldl
    (fun acc i =>
      (bindPlane p f s acc.1 i, acc.2 ++ if cglErr i then [i] else []))
    (frame, [])

/-- Everything observable about one map_frame call: the C return
status, whether the plane-count assertion aborted, the component state
after the call, the out_frame after the call, the retain/release
actions performed, and the plane indices whose CGL import failed. -/
structure MapResult where
  status : Int
  aborted : Bool
  priv : Priv
  frame : gl_hwdec_frame
  events : List RefEvent
  cglFailures : List Nat
deriving DecidableEq, Repr

/-- The branch structure of map_frame after the unconditional
release/store/retain prologue: surface fetch, format lookup, the
plane-count assertion, then the import loop.  Yields (status, aborted,
out_frame after the call, failed plane indices). -/
def map_frame_core (p2 : Priv) (hw_image : HwImage) (out_frame : gl_hwdec_frame)
    (cglErr : Nat → Bool) : Int × Bool × gl_hwdec_frame × List Nat :=
  match hw_image.buf.surface with
  | none => (-1, false, out_frame, [])
  | some surface =>
      match vt_get_gl_format hw_image.buf.pixelFormatType with
      | none => (-1, false, out_frame, [])
      | some f =>
          if assert_cond hw_image.buf.isPlanar hw_image.buf.planeCount f.planes then
            let r := bindLoop p2 f surface out_frame cglErr
            (0, false, r.1, r.2)
          else
            (0, true, out_frame, [])

/-- map_frame.  The release of the old slot, the store of the new ref
and the retain all happen first, unconditionally and before any check;
then the surface is fetched, the format resolved, the assertion
evaluated, and the import loop run (map_frame_core).  cglErr says
which planes' CGLTexImageIOSurface2D calls fail; such a failure is
logged and nothing else. -/
def map_frame (p : Priv) (hw_image : HwImage) (out_frame : gl_hwdec_frame)
    (cglErr : Nat → Bool) : MapResult :=
  let p2 : Priv := { p with pbuf := some hw_image.ref }
  let core := map_frame_core p2 hw_image out_frame cglErr
  { status := core.1
    aborted := core.2.1
    priv := p2
    frame := core.2.2.1
    events := [RefEvent.release p.pbuf, RefEvent.retain hw_image.ref]
    cglFailures := core.2.2.2 }

/-- destroy: releases whatever the slot holds (a no-op release when it
is still empty) and deletes the texture names. -/
def destroy_events (p : Priv) : List RefEvent :=
  [RefEvent.release p.pbuf]

/-! ## Reference accounting for sequences of imports -/

/-- Net effect of one event on the reference count of buffer b. -/
def refDelta (b : Nat) : RefEvent → Int
  | .release none => 0
  | .release (some b2) => if b2 = b then -1 else 0
  | .retain b2 => if b2 = b then 1 else 0

/-- Net number of references this component holds on buffer b after a
trace of events. -/
def netCount (b : Nat) (evs : List RefEvent) : Int :=
  (evs.map (refDelta b)).sum

/-- State threaded through a run of successive map_frame calls. -/
structure RunState where
  priv : Priv
  events : List RefEvent
  aborted : Bool
deriving DecidableEq, Repr

/-- One import step: a process killed by the assertion performs no
further calls, so an aborted run stays put. -/
def run_step (st : RunState) (img : HwImage) : RunState :=
  if st.aborted then st
  else
    let r := map_frame st.priv img emptyFrame (fun _ => false)
    { priv := r.priv, events := st.events ++ r.events, aborted := r.aborted }

/-- The component state right after create: empty slot, fresh texture
names, no events yet. -/
def initRun (gl_planes : List Nat) : RunState :=
  { priv := { pbuf := none, gl_planes := gl_planes }, events := [], aborted := false }

/-- Run map_frame over a list of successive frames from create. -/
def run_imports (gl_planes : List Nat) (fs : List HwImage) : RunState :=
  fs.foldl run_step (initRun gl_planes)

end HwdecOsx

namespace HwdecOsx

/-! ## C1: the two lookups are mutual inverses on the table -/

/-- C1: every entry of vt_formats is found again by vt_get_gl_format
from its cvpixfmt and by vt_get_gl_format_from_imgfmt from its imgfmt
(the lookups are mutual inverses on the declared fields), and both the
cvpixfmt and the imgfmt fields are pairwise distinct across the table. -/
theorem c1_lookups_mutual_inverses :
    (∀ e ∈ vt_formats,
        vt_get_gl_format e.cvpixfmt = some e ∧
        vt_get_gl_format_from_imgfmt e.imgfmt = some e) ∧
    vt_formats.Pairwise (fun a b => a.cvpixfmt ≠ b.cvpixfmt ∧ a.imgfmt ≠ b.imgfmt) := by
  decide

/-- Concrete instance of c1 at the first table entry. -/
theorem c1_lookups_mutual_inverses_witness :
    vt_get_gl_format fmt_nv12.cvpixfmt = some fmt_nv12 ∧
    vt_get_gl_format_from_imgfmt fmt_nv12.imgfmt = some fmt_nv12 :=
  c1_lookups_mutual_inverses.1 fmt_nv12 (by decide)

/-! ## C9: the get_vt_fmt sentinel -/

/-- C9: get_vt_fmt returns (uint32_t)-1 exactly when the configured
image format is absent from the table, returns the entry's hardware
format id when it is present, and the sentinel collides with no table
entry's hardware id. -/
theorem c9_get_vt_fmt_sentinel (fmt : Nat) :
    (vt_get_gl_format_from_imgfmt fmt = none → get_vt_fmt fmt = UINT32_MAX) ∧
    (∀ f, vt_get_gl_format_from_imgfmt fmt = some f → get_vt_fmt fmt = f.cvpixfmt) ∧
    (∀ e ∈ vt_formats, e.cvpixfmt ≠ UINT32_MAX) := by
  refine ⟨fun h => ?_, fun f h => ?_, by decide⟩
  · simp [get_vt_fmt, h]
  · simp [get_vt_fmt, h]

/-- Concrete instances of c9: an absent format maps to the sentinel, a
present one to its declared hardware id. -/
theorem c9_get_vt_fmt_sentinel_witness :
    get_vt_fmt 999 = UINT32_MAX ∧ get_vt_fmt IMGFMT_NV12 = fmt_nv12.cvpixfmt :=
  ⟨(c9_get_vt_fmt_sentinel 999).1 (by decide),
   (c9_get_vt_fmt_sentinel IMGFMT_NV12).2.1 fmt_nv12 (by decide)⟩

/-! ## C6: reinit -/

/-- C6: under reinit's entry assertion, a subformat present in the
table yields status 0 with the image format rewritten to the resolved
internal format and the subformat cleared to 0; an absent subformat
yields status -1 with the params exactly as passed in. -/
theorem c6_reinit_rewrites_or_preserves (params : mp_image_params)
    (h : params.imgfmt = IMGFMT_VIDEOTOOLBOX) :
    (∀ f, vt_get_gl_format_from_imgfmt params.hw_subfmt = some f →
        reinit params = some (0, { imgfmt := f.imgfmt, hw_subfmt := 0 })) ∧
    (vt_get_gl_format_from_imgfmt params.hw_subfmt = none →
        reinit params = some (-1, params)) := by
  refine ⟨fun f hf => ?_, fun hf => ?_⟩
  · simp [reinit, h, hf]
  · simp [reinit, h, hf]

/-- Concrete instances of c6: a resolvable and an unresolvable
subformat. -/
theorem c6_reinit_witness :
    reinit ⟨IMGFMT_VIDEOTOOLBOX, IMGFMT_NV12⟩ = some (0, ⟨IMGFMT_NV12, 0⟩) ∧
    reinit ⟨IMGFMT_VIDEOTOOLBOX, 999⟩ = some (-1, ⟨IMGFMT_VIDEOTOOLBOX, 999⟩) :=
  ⟨(c6_reinit_rewrites_or_preserves ⟨IMGFMT_VIDEOTOOLBOX, IMGFMT_NV12⟩ rfl).1
      fmt_nv12 (by decide),
   (c6_reinit_rewrites_or_preserves ⟨IMGFMT_VIDEOTOOLBOX, 999⟩ rfl).2 (by decide)⟩

/-! ## C5: lock balance in download_image -/

/-- C5: download_image releases the buffer lock exactly as many times
as it acquires it on every path, and the lock is acquired (exactly
once) precisely when the format-tag defensive check passes; the only
lock-free return is the pre-lock tag check. -/
theorem c5_lock_released_once (img : HwDlImage) :
    (download_image img).unlocks = (download_image img).locks ∧
    (download_image img).locks =
      (if img.imgfmt = IMGFMT_VIDEOTOOLBOX then 1 else 0) := by
  by_cases h : img.imgfmt = IMGFMT_VIDEOTOOLBOX
  · rcases hf : vt_get_gl_format img.pbuf.pixelFormatType with _ | f <;>
      simp [download_image, h, hf]
  · simp [download_image, h]

end HwdecOsx

namespace HwdecOsx

/-! ## Concrete buffers used as inputs -/

/-- A buffer with a backing surface whose pixel-format type appears in
no row of the table. -/
def unknownFmtBuf : CVPixelBuffer :=
  { pixelFormatType := 0xDEADBEEF, width := 64, height := 32,
    isPlanar := false, planeCount := 1,
    planeBases := [0], planeStrides := [64],
    surface := some ⟨[64], [32]⟩ }

/-- A buffer whose CVPixelBufferGetIOSurface query yields NULL. -/
def noSurfaceBuf : CVPixelBuffer :=
  { pixelFormatType := kCVPixelFormatType_32BGRA, width := 8, height := 8,
    isPlanar := false, planeCount := 1,
    planeBases := [0], planeStrides := [32],
    surface := none }

/-- The backing surface of the NV12 test buffer: per-plane dimensions
1280 by 720 for luma and 640 by 360 for the subsampled chroma plane. -/
def nv12_surface : Surface := ⟨[1280, 640], [720, 360]⟩

/-- A planar two-plane buffer tagged 420v, backed by nv12_surface. -/
def nv12_buf : CVPixelBuffer :=
  { pixelFormatType := kCVPixelFormatType_420YpCbCr8BiPlanarVideoRange,
    width := 1280, height := 720,
    isPlanar := true, planeCount := 2,
    planeBases := [100, 200], planeStrides := [1280, 1280],
    surface := some nv12_surface }

/-- A planar buffer reporting 3 planes, tagged 2vuy, whose table
descriptor declares a single plane. -/
def planarMismatchBuf : CVPixelBuffer :=
  { pixelFormatType := kCVPixelFormatType_422YpCbCr8, width := 64, height := 32,
    isPlanar := true, planeCount := 3,
    planeBases := [0, 1, 2], planeStrides := [64, 64, 64],
    surface := some ⟨[64, 32, 32], [32, 16, 16]⟩ }

/-! ## C2: the plane-count assertion as written versus as specified -/

/-- C2: at a planar frame reporting 3 planes whose descriptor declares
plane_count 1, the assertion as the code writes it evaluates true — so
map_frame does not abort and proceeds to import — while the
plane-count condition the claim states evaluates false and demands an
assertion failure.  The C precedence of over makes the f->planes == 1
disjunct exempt planar frames as well. -/
theorem c2_assert_precedence_divergence :
    assert_cond true 3 1 = true ∧
    spec_plane_cond true 3 1 = false ∧
    (map_frame ⟨none, [11, 12, 13, 14]⟩ ⟨8, planarMismatchBuf⟩ emptyFrame
        (fun _ => false)).aborted = false ∧
    (map_frame ⟨none, [11, 12, 13, 14]⟩ ⟨8, planarMismatchBuf⟩ emptyFrame
        (fun _ => false)).status = 0 := by
  decide

/-! ## C3: import of an unrecognized format -/

/-- C3 counterexample: with no prior import (the slot still empty from
create), importing a frame of unrecognized pixel-format type returns
the error status yet does not leave the slot empty: the slot now holds
the new frame's buffer. -/
theorem c3_counterexample_slot_not_left_empty :
    (map_frame ⟨none, [11, 12, 13, 14]⟩ ⟨42, unknownFmtBuf⟩ emptyFrame
        (fun _ => false)).status = -1 ∧
    (map_frame ⟨none, [11, 12, 13, 14]⟩ ⟨42, unknownFmtBuf⟩ emptyFrame
        (fun _ => false)).priv.pbuf = some 42 := by
  decide

/-- C3 amended: importing a frame whose pixel-format type is absent
from the table returns the error status, leaves the out_frame
untouched, and in every case — whether or not any prior import
succeeded — leaves the slot holding the new frame's buffer, with the
old reference released and the new one retained, because the
release-then-retain step runs unconditionally before the format
lookup. -/
theorem c3_unknown_format_replaces_slot (p : Priv) (img : HwImage)
    (o : gl_hwdec_frame) (e : Nat → Bool) (s : Surface)
    (hs : img.buf.surface = some s)
    (hf : vt_get_gl_format img.buf.pixelFormatType = none) :
    (map_frame p img o e).status = -1 ∧
    (map_frame p img o e).priv.pbuf = some img.ref ∧
    (map_frame p img o e).frame = o ∧
    (map_frame p img o e).events =
      [RefEvent.release p.pbuf, RefEvent.retain img.ref] := by
  refine ⟨?_, rfl, ?_, rfl⟩ <;> simp [map_frame, map_frame_core, hs, hf]

/-- Concrete instance of the amended c3, with a prior import having
left buffer 7 in the slot. -/
theorem c3_unknown_format_replaces_slot_witness :
    (map_frame ⟨some 7, [11, 12, 13, 14]⟩ ⟨42, unknownFmtBuf⟩ emptyFrame
        (fun _ => false)).status = -1 ∧
    (map_frame ⟨some 7, [11, 12, 13, 14]⟩ ⟨42, unknownFmtBuf⟩ emptyFrame
        (fun _ => false)).priv.pbuf = some 42 ∧
    (map_frame ⟨some 7, [11, 12, 13, 14]⟩ ⟨42, unknownFmtBuf⟩ emptyFrame
        (fun _ => false)).frame = emptyFrame ∧
    (map_frame ⟨some 7, [11, 12, 13, 14]⟩ ⟨42, unknownFmtBuf⟩ emptyFrame
        (fun _ => false)).events =
      [RefEvent.release (some 7), RefEvent.retain 42] :=
  c3_unknown_format_replaces_slot ⟨some 7, [11, 12, 13, 14]⟩ ⟨42, unknownFmtBuf⟩
    emptyFrame (fun _ => false) ⟨[64], [32]⟩ rfl (by decide)

/-! ## C10: error exits precede the binding loop -/

/-- C10: when map_frame fails — backing surface absent or
pixel-format type unrecognized — the out_frame is returned exactly as
passed in: both error returns precede the per-plane binding loop. -/
theorem c10_error_leaves_out_frame (p : Priv) (img : HwImage)
    (o : gl_hwdec_frame) (e : Nat → Bool)
    (h : img.buf.surface = none ∨
         vt_get_gl_format img.buf.pixelFormatType = none) :
    (map_frame p img o e).status = -1 ∧
    (map_frame p img o e).frame = o := by
  rcases h with h | h
  · constructor <;> simp [map_frame, map_frame_core, h]
  · rcases hs : img.buf.surface with _ | s
    · constructor <;> simp [map_frame, map_frame_core, hs]
    · constructor <;> simp [map_frame, map_frame_core, hs, h]

/-- Concrete instance of c10 on the surface-less buffer. -/
theorem c10_error_leaves_out_frame_witness :
    (map_frame ⟨none, [11, 12, 13, 14]⟩ ⟨5, noSurfaceBuf⟩ emptyFrame
        (fun _ => false)).status = -1 ∧
    (map_frame ⟨none, [11, 12, 13, 14]⟩ ⟨5, noSurfaceBuf⟩ emptyFrame
        (fun _ => false)).frame = emptyFrame :=
  c10_error_leaves_out_frame ⟨none, [11, 12, 13, 14]⟩ ⟨5, noSurfaceBuf⟩
    emptyFrame (fun _ => false) (Or.inl rfl)

end HwdecOsx

namespace HwdecOsx

/-! ## The import loop: supporting lemmas -/

/-- The frame component of the loop fold ignores the error oracle and
the accumulated failure log: failures only add log entries. -/
theorem bindFold_fst (p : Priv) (f : vt_format) (s : Surface) (e : Nat → Bool) :
    ∀ (l : List Nat) (fr : gl_hwdec_frame) (errs : List Nat),
      (l.foldl
        (fun acc i => (bindPlane p f s acc.1 i, acc.2 ++ if e i then [i] else []))
        (fr, errs)).1
        = l.foldl (fun fr2 i => bindPlane p f s fr2 i) fr
  | [], _, _ => rfl
  | a :: t, fr, errs => by
      simp only [List.foldl_cons]
      exact bindFold_fst p f s e t (bindPlane p f s fr a) _

/-- Folding plane bindings never changes the plane-array capacity. -/
theorem bindFold_length (p : Priv) (f : vt_format) (s : Surface) :
    ∀ (l : List Nat) (fr : gl_hwdec_frame),
      (l.foldl (fun fr2 i => bindPlane p f s fr2 i) fr).planes.length
        = fr.planes.length
  | [], _ => rfl
  | a :: t, fr => by
      simp only [List.foldl_cons]
      rw [bindFold_length p f s t]
      simp [bindPlane]

/-- After folding the bindings for planes 0..n-1, entry i holds the
populated entry when i is a bound plane within capacity, and is
exactly the incoming entry otherwise. -/
theorem bindFold_range_getElem (p : Priv) (f : vt_format) (s : Surface) :
    ∀ (n : Nat) (fr : gl_hwdec_frame) (i : Nat),
      ((List.range n).foldl (fun fr2 j => bindPlane p f s fr2 j) fr).planes[i]? =
        (if i < n ∧ i < fr.planes.length then some (populatedPlane p f s i)
         else fr.planes[i]?) := by
  intro n
  induction n with
  | zero => intro fr i; simp
  | succ n ih =>
      intro fr i
      rw [List.range_succ n, List.foldl_append]
      simp only [List.foldl_cons, List.foldl_nil]
      set G := (List.range n).foldl (fun fr2 j => bindPlane p f s fr2 j) fr with hG
      have hGlen : G.planes.length = fr.planes.length := by
        rw [hG]; exact bindFold_length p f s _ fr
      have hbp : (bindPlane p f s G n).planes
          = G.planes.set n (populatedPlane p f s n) := rfl
      have h2 := ih fr i
      rw [← hG] at h2
      rw [hbp]
      rcases eq_or_ne i n with hin | hin
      · subst hin
        by_cases hlen : i < fr.planes.length
        · rw [List.getElem?_set_eq_of_lt _ (by omega : i < G.planes.length)]
          simp [hlen]
        · rw [List.set_eq_of_length_le (by omega : G.planes.length ≤ i), h2]
          simp [hlen]
      · rw [List.getElem?_set_ne (Ne.symm hin), h2]
        have hiff : (i < n ∧ i < fr.planes.length)
            ↔ (i < n + 1 ∧ i < fr.planes.length) := by
          constructor <;> intro hx <;> exact ⟨by omega, hx.2⟩
        rw [if_congr hiff rfl rfl]

end HwdecOsx

namespace HwdecOsx

/-- The out_frame produced by the import loop does not depend on which
CGL calls fail. -/
theorem bindLoop_frame_indep (p : Priv) (f : vt_format) (s : Surface)
    (fr : gl_hwdec_frame) (e : Nat → Bool) :
    (bindLoop p f s fr e).1 = (bindLoop p f s fr (fun _ => false)).1 := by
  unfold bindLoop
  rw [bindFold_fst, bindFold_fst]

/-! ## C7: per-plane CGL failures are best effort -/

/-- C7: once the binding loop is reached (surface present, format
resolved, assertion passed), the call returns the success status and
does not abort whatever CGL errors occur, the resulting out_frame is
identical to the error-free one, and every plane entry 0..plane_count-1
within capacity is populated. -/
theorem c7_plane_error_best_effort (p : Priv) (img : HwImage) (o : gl_hwdec_frame)
    (e : Nat → Bool) (s : Surface) (f : vt_format)
    (hs : img.buf.surface = some s)
    (hf : vt_get_gl_format img.buf.pixelFormatType = some f)
    (ha : assert_cond img.buf.isPlanar img.buf.planeCount f.planes = true) :
    (map_frame p img o e).status = 0 ∧
    (map_frame p img o e).aborted = false ∧
    (map_frame p img o e).frame = (map_frame p img o (fun _ => false)).frame ∧
    ∀ i, i < f.planes → i < o.planes.length →
      (map_frame p img o e).frame.planes[i]? =
        some (populatedPlane { p with pbuf := some img.ref } f s i) := by
  have hm : ∀ e2, map_frame p img o e2 =
      { status := 0, aborted := false
        priv := { p with pbuf := some img.ref }
        frame := (bindLoop { p with pbuf := some img.ref } f s o e2).1
        events := [RefEvent.release p.pbuf, RefEvent.retain img.ref]
        cglFailures := (bindLoop { p with pbuf := some img.ref } f s o e2).2 } := by
    intro e2
    unfold map_frame map_frame_core
    simp only [hs, hf, ha, if_true]
  refine ⟨by rw [hm], by rw [hm], ?_, ?_⟩
  · rw [hm e, hm (fun _ => false)]
    exact bindLoop_frame_indep _ f s o e
  · intro i h1 h2
    rw [hm e]
    show (bindLoop { p with pbuf := some img.ref } f s o e).1.planes[i]? = _
    unfold bindLoop
    rw [bindFold_fst, bindFold_range_getElem]
    simp [h1, h2]

/-- Concrete instance of c7: importing the NV12 buffer with the CGL
call failing on plane 0 still succeeds and still populates plane 1
with the surface's chroma dimensions. -/
theorem c7_plane_error_best_effort_witness :
    (map_frame ⟨none, [11, 12, 13, 14]⟩ ⟨9, nv12_buf⟩ emptyFrame
        (fun i => i == 0)).status = 0 ∧
    (map_frame ⟨none, [11, 12, 13, 14]⟩ ⟨9, nv12_buf⟩ emptyFrame
        (fun i => i == 0)).aborted = false ∧
    (map_frame ⟨none, [11, 12, 13, 14]⟩ ⟨9, nv12_buf⟩ emptyFrame
        (fun i => i == 0)).frame =
      (map_frame ⟨none, [11, 12, 13, 14]⟩ ⟨9, nv12_buf⟩ emptyFrame
        (fun _ => false)).frame ∧
    (map_frame ⟨none, [11, 12, 13, 14]⟩ ⟨9, nv12_buf⟩ emptyFrame
        (fun i => i == 0)).frame.planes[1]? =
      some (populatedPlane ⟨some 9, [11, 12, 13, 14]⟩ fmt_nv12 nv12_surface 1) := by
  have h := c7_plane_error_best_effort ⟨none, [11, 12, 13, 14]⟩ ⟨9, nv12_buf⟩
      emptyFrame (fun i => i == 0) nv12_surface fmt_nv12 rfl (by decide) (by decide)
  exact ⟨h.1, h.2.1, h.2.2.1, h.2.2.2 1 (by decide) (by decide)⟩

/-! ## C8: the semi-planar video-range scenario -/

/-- C8: the 420v table row declares exactly 2 planes, plane 0
single-channel byte-sampled and plane 1 two-channel byte-sampled; and
importing a planar two-plane buffer tagged with that id succeeds and
populates exactly the first two out_frame entries, whose dimensions
are the surface's per-plane dimensions (plane 1 differs from the
frame's nominal 1280 by 720). -/
theorem c8_nv12_semiplanar_import :
    fmt_nv12.planes = 2 ∧
    vt_get_gl_format kCVPixelFormatType_420YpCbCr8BiPlanarVideoRange
      = some fmt_nv12 ∧
    (fmt_nv12.gl.getD 0 zeroPlaneFormat).gl_format = GL_RED ∧
    (fmt_nv12.gl.getD 0 zeroPlaneFormat).gl_type = GL_UNSIGNED_BYTE ∧
    (fmt_nv12.gl.getD 1 zeroPlaneFormat).gl_format = GL_RG ∧
    (fmt_nv12.gl.getD 1 zeroPlaneFormat).gl_type = GL_UNSIGNED_BYTE ∧
    (map_frame ⟨none, [11, 12, 13, 14]⟩ ⟨9, nv12_buf⟩ emptyFrame
        (fun _ => false)).status = 0 ∧
    (map_frame ⟨none, [11, 12, 13, 14]⟩ ⟨9, nv12_buf⟩ emptyFrame
        (fun _ => false)).frame.planes[0]? =
      some ⟨11, GL_TEXTURE_RECTANGLE, 1280, 720, ""⟩ ∧
    (map_frame ⟨none, [11, 12, 13, 14]⟩ ⟨9, nv12_buf⟩ emptyFrame
        (fun _ => false)).frame.planes[1]? =
      some ⟨12, GL_TEXTURE_RECTANGLE, 640, 360, ""⟩ ∧
    (map_frame ⟨none, [11, 12, 13, 14]⟩ ⟨9, nv12_buf⟩ emptyFrame
        (fun _ => false)).frame.planes[2]? = some zeroHwdecPlane ∧
    (map_frame ⟨none, [11, 12, 13, 14]⟩ ⟨9, nv12_buf⟩ emptyFrame
        (fun _ => false)).frame.planes[3]? = some zeroHwdecPlane := by
  decide

end HwdecOsx

namespace HwdecOsx

/-! ## C4: exactly one retained reference across successive imports -/

/-- Reference accounting distributes over concatenated traces. -/
theorem netCount_append (b : Nat) (l1 l2 : List RefEvent) :
    netCount b (l1 ++ l2) = netCount b l1 + netCount b l2 := by
  simp [netCount]

/-- If the trace so far accounts for exactly the reference the slot
holds, the same is true after any further sequence of imports: every
call appends one release of the old slot and one retain of the new
buffer. -/
theorem run_netCount (fs : List HwImage) (st : RunState)
    (hinv : ∀ b, netCount b st.events = if some b = st.priv.pbuf then 1 else 0) :
    ∀ b, netCount b (fs.foldl run_step st).events =
      if some b = (fs.foldl run_step st).priv.pbuf then 1 else 0 := by
  induction fs generalizing st with
  | nil => exact hinv
  | cons f t ih =>
      simp only [List.foldl_cons]
      apply ih
      intro b
      by_cases hab : st.aborted
      · have hid : run_step st f = st := by simp [run_step, hab]
        rw [hid]
        exact hinv b
      · have hev : (run_step st f).events
            = st.events ++ [RefEvent.release st.priv.pbuf, RefEvent.retain f.ref] := by
          simp [run_step, map_frame, hab]
        have hpb : (run_step st f).priv.pbuf = some f.ref := by
          simp [run_step, map_frame, hab]
        rw [hev, hpb, netCount_append, hinv b]
        rcases hslot : st.priv.pbuf with _ | o
        · by_cases hbf : b = f.ref
          · simp [netCount, refDelta, hbf, Option.some_inj]
          · simp [netCount, refDelta, hbf, Option.some_inj]
            omega
        · by_cases hbo : b = o <;> by_cases hbf : b = f.ref <;>
            simp [netCount, refDelta, hbo, hbf, Option.some_inj] <;> omega

/-- A run that has not been killed by the assertion ends with the slot
holding the last imported frame's buffer. -/
theorem run_last_pbuf (fs : List HwImage) (st : RunState) (l : HwImage)
    (hl : fs.getLast? = some l)
    (hab : (fs.foldl run_step st).aborted = false) :
    (fs.foldl run_step st).priv.pbuf = some l.ref := by
  induction fs generalizing st with
  | nil => cases hl
  | cons f t ih =>
      cases t with
      | nil =>
          simp only [List.getLast?_singleton, Option.some_inj] at hl
          subst hl
          simp only [List.foldl_cons, List.foldl_nil] at hab ⊢
          by_cases hst : st.aborted
          · rw [run_step, if_pos hst] at hab
            rw [hab] at hst
            exact absurd hst (by simp)
          · rw [run_step, if_neg hst]
            rfl
      | cons g t2 =>
          simp only [List.foldl_cons] at hab ⊢
          have hl2 : (g :: t2).getLast? = some l := by
            rw [← hl, List.getLast?_cons_cons]
          have h3 := ih (run_step st f) hl2
          simpa [List.foldl_cons] using h3 hab

/-- C4: over any run of successive imports from create, every call
performs exactly one release of the previously held reference followed
by one retain of the new frame's buffer (whatever path the call then
takes); and provided the run was not killed by the plane-count
assertion, after the last import the slot holds the last frame's
buffer, and the net reference count over the whole trace is exactly
one for that buffer and zero for every other buffer. -/
theorem c4_single_retained_reference (gl_planes : List Nat) (fs : List HwImage)
    (l : HwImage) (hl : fs.getLast? = some l)
    (hab : (run_imports gl_planes fs).aborted = false) :
    (∀ (p : Priv) (img : HwImage) (o : gl_hwdec_frame) (e : Nat → Bool),
        (map_frame p img o e).events =
          [RefEvent.release p.pbuf, RefEvent.retain img.ref]) ∧
    (run_imports gl_planes fs).priv.pbuf = some l.ref ∧
    (∀ b, netCount b (run_imports gl_planes fs).events =
        if b = l.ref then 1 else 0) := by
  refine ⟨fun p img o e => rfl, ?_, ?_⟩
  · exact run_last_pbuf fs (initRun gl_planes) l hl hab
  · intro b
    have h := run_netCount fs (initRun gl_planes)
        (fun b2 => by simp [initRun, netCount]) b
    rw [run_last_pbuf fs (initRun gl_planes) l hl hab] at h
    simpa using h

/-- Concrete instance of c4: two successive imports of distinct
buffers 9 and 10 leave the slot on buffer 10, a net count of one
reference on buffer 10 and none on buffer 9. -/
theorem c4_single_retained_reference_witness :
    (run_imports [11, 12, 13, 14]
        [⟨9, nv12_buf⟩, ⟨10, nv12_buf⟩]).priv.pbuf = some 10 ∧
    netCount 10 (run_imports [11, 12, 13, 14]
        [⟨9, nv12_buf⟩, ⟨10, nv12_buf⟩]).events = 1 ∧
    netCount 9 (run_imports [11, 12, 13, 14]
        [⟨9, nv12_buf⟩, ⟨10, nv12_buf⟩]).events = 0 := by
  have h := c4_single_retained_reference [11, 12, 13, 14]
      [⟨9, nv12_buf⟩, ⟨10, nv12_buf⟩] ⟨10, nv12_buf⟩ (by decide) (by decide)
  refine ⟨h.2.1, ?_, ?_⟩
  · have := h.2.2 10
    simpa using this
  · have := h.2.2 9
    simpa using this

end HwdecOsx
